import Mathlib

/-!
# Verification of the snake game core (src/game.py)

Shallow embedding of the game-state machine of `SnakeGame`: direction and
head update (`_move`), collision detection (`_is_collision`), food placement
(`_place_food`), `reset`, `step`, the 12-value observation (`_get_state`)
and the action-space label table (`get_action_space`).

Randomness of food placement is made explicit: the stream of draws produced
by `random.randint` is passed in as a list of candidate cells, and the
rejection-sampling loop becomes `List.find?`; a `none` result models the
loop not terminating within the supplied stream.
-/

namespace Snake

/-- The `Direction` enumeration of the source: RIGHT = 0, LEFT = 1, UP = 2, DOWN = 3. -/
inductive Direction where
  | RIGHT
  | LEFT
  | UP
  | DOWN
deriving DecidableEq, Repr

/-- `Direction.value`: the ordinal of each enumeration member, as in the source. -/
def Direction.value : Direction → Nat
  | .RIGHT => 0
  | .LEFT => 1
  | .UP => 2
  | .DOWN => 3

/-- `Direction.name`: the member name string, as Python's `Enum.name`. -/
def Direction.name : Direction → String
  | .RIGHT => "RIGHT"
  | .LEFT => "LEFT"
  | .UP => "UP"
  | .DOWN => "DOWN"

/-- The `opposites` dictionary of `_move`. -/
def opposites : Direction → Direction
  | .RIGHT => .LEFT
  | .LEFT => .RIGHT
  | .UP => .DOWN
  | .DOWN => .UP

/-- The `directions` list of `_move`: actions index into it. -/
def directions : List Direction := [.RIGHT, .LEFT, .UP, .DOWN]

/-- A grid cell `[x, y]` (Python list of two ints). -/
abbrev Pos := Int × Int

/-- The mutable state of a `SnakeGame` instance (the rendering-only fields
`width`, `height`, `grid_size`, `display`, `clock` are presentation layer
and omitted; `grid_width` and `grid_height` are kept directly). -/
structure SnakeGame where
  grid_width : Int
  grid_height : Int
  snake_direction : Direction
  head : Pos
  snake : List Pos
  score : Nat
  food : Pos
  game_over : Bool
  frame_iteration : Nat
deriving DecidableEq, Repr

/-- `_place_food`: draw candidate cells until one is not occupied by the
snake. The draws of `random.randint(0, grid_w-1), random.randint(0, grid_h-1)`
are the entries of `cands`; the loop is the first draw outside the snake. -/
def place_food (cands : List Pos) (snake : List Pos) : Option Pos :=
  cands.find? (fun c => decide (c ∉ snake))

/-- The direction-update half of `_move`: if `0 <= action <= 3`, look the
requested direction up in `directions`; keep the current direction when the
request is the exact opposite (no 180-degree turns), and also when the
action is out of range. -/
def move_direction (current : Direction) (action : Int) : Direction :=
  if 0 ≤ action ∧ action ≤ 3 then
    let new_direction := directions.getD action.toNat Direction.RIGHT
    if new_direction ≠ opposites current then new_direction else current
  else current

/-- The head-update half of `_move`: one cell in the given direction,
RIGHT = x+1, LEFT = x-1, DOWN = y+1, UP = y-1. -/
def move_head (d : Direction) (p : Pos) : Pos :=
  match d with
  | .RIGHT => (p.1 + 1, p.2)
  | .LEFT => (p.1 - 1, p.2)
  | .DOWN => (p.1, p.2 + 1)
  | .UP => (p.1, p.2 - 1)

/-- `_move`: update `snake_direction` from the action, then move `head` one
cell in the (possibly updated) direction. -/
def SnakeGame.move (g : SnakeGame) (action : Int) : SnakeGame :=
  let d := move_direction g.snake_direction action
  { g with snake_direction := d, head := move_head d g.head }

/-- `_is_collision`: head out of bounds, or head equal to a segment of
`snake[1:]` (the body excluding the head itself). -/
def SnakeGame.is_collision (g : SnakeGame) : Bool :=
  (decide (g.head.1 ≥ g.grid_width) || decide (g.head.1 < 0) ||
   decide (g.head.2 ≥ g.grid_height) || decide (g.head.2 < 0)) ||
  decide (g.head ∈ g.snake.tail)

/-- Python `int(bool)`, the coercion applied by `np.array(state, dtype=int)`. -/
def b2i (b : Bool) : Nat := if b then 1 else 0

/-- `_get_state`: the 12-value observation. Indices 0-3: danger one cell
RIGHT, DOWN, LEFT, UP of the head (`points_relative`), true when off-grid or
on `snake[1:]`. Indices 4-7: one-hot of `snake_direction.value` written into
`[0,0,0,0]`. Indices 8-11: food direction flags. -/
def SnakeGame.get_state (g : SnakeGame) : List Nat :=
  let points_relative : List (Int × Int) := [(1, 0), (0, 1), (-1, 0), (0, -1)]
  let danger := points_relative.map (fun dxy =>
    let point : Pos := (g.head.1 + dxy.1, g.head.2 + dxy.2)
    (decide (point.1 ≥ g.grid_width) || decide (point.1 < 0) ||
     decide (point.2 ≥ g.grid_height) || decide (point.2 < 0)) ||
    decide (point ∈ g.snake.tail))
  let dir_one_hot := ([0, 0, 0, 0] : List Nat).set g.snake_direction.value 1
  let food_dir := [decide (g.food.1 > g.head.1), decide (g.food.2 > g.head.2),
    decide (g.food.1 < g.head.1), decide (g.food.2 < g.head.2)]
  danger.map b2i ++ dir_one_hot ++ food_dir.map b2i

/-- `reset`: direction RIGHT, head at the grid center, three segments
trailing left, score 0, frame counter 0, not game over, food placed by
rejection sampling from the supplied draw stream. Python's `//` is floor
division, `Int.fdiv`. -/
def reset (grid_w grid_h : Int) (cands : List Pos) : Option SnakeGame :=
  let head : Pos := (Int.fdiv grid_w 2, Int.fdiv grid_h 2)
  let snake : List Pos := [head, (head.1 - 1, head.2), (head.1 - 2, head.2)]
  match place_food cands snake with
  | none => none
  | some f =>
    some { grid_width := grid_w, grid_height := grid_h,
           snake_direction := Direction.RIGHT, head := head, snake := snake,
           score := 0, food := f, game_over := false, frame_iteration := 0 }

/-- What one `step` call returns, together with the mutated game state:
observation, reward, done flag and `info['score']`. -/
structure StepResult where
  state : SnakeGame
  obs : List Nat
  reward : ℚ
  done : Bool
  score : Nat
deriving DecidableEq, Repr

/-- The first half of `step`: increment the frame counter, `_move(action)`,
then `snake.insert(0, head.copy())`. -/
def SnakeGame.after_insert (g : SnakeGame) (action : Int) : SnakeGame :=
  let g1 := { g with frame_iteration := g.frame_iteration + 1 }
  let g2 := g1.move action
  { g2 with snake := g2.head :: g2.snake }

/-- `step`: after the frame increment, move and head insertion, either the
terminal branch (collision, or frame counter above `100 * len(snake)`:
reward -10, done, early return), the food branch (score +1, reward 10, new
food placed with the tail kept), or the default branch (tail popped, reward
-0.01). `cands` is the draw stream for a food placement; `none` models the
placement loop failing to terminate within it. -/
def SnakeGame.step (g : SnakeGame) (action : Int) (cands : List Pos) :
    Option StepResult :=
  let g3 := g.after_insert action
  if g3.is_collision || decide (g3.frame_iteration > 100 * g3.snake.length) then
    some ⟨g3, g3.get_state, -10, true, g3.score⟩
  else if g3.head = g3.food then
    match place_food cands g3.snake with
    | none => none
    | some f =>
      let g4 := { g3 with score := g3.score + 1, food := f }
      some ⟨g4, g4.get_state, 10, false, g4.score⟩
  else
    let g4 := { g3 with snake := g3.snake.dropLast }
    some ⟨g4, g4.get_state, -1/100, false, g4.score⟩

/-- `get_action_space()['n']`. -/
def get_action_space_n : Nat := 4

/-- `get_action_space()['actions']`: the label table. -/
def get_action_space_actions : List (Int × String) :=
  [(0, "RIGHT"), (1, "DOWN"), (2, "LEFT"), (3, "UP")]

/-- A cell lies inside the grid, `0 ≤ x < grid_width` and `0 ≤ y < grid_height`. -/
def in_grid (g : SnakeGame) (p : Pos) : Prop :=
  0 ≤ p.1 ∧ p.1 < g.grid_width ∧ 0 ≤ p.2 ∧ p.2 < g.grid_height

/-- One cell in direction `d` from the head is off-grid or on a body
segment excluding the head (the danger predicate of the observation). -/
def danger_towards (g : SnakeGame) (d : Direction) : Prop :=
  ¬ in_grid g (move_head d g.head) ∨ move_head d g.head ∈ g.snake.tail

section Lemmas

lemma after_insert_direction (g : SnakeGame) (a : Int) :
    (g.after_insert a).snake_direction = move_direction g.snake_direction a := rfl

lemma after_insert_head (g : SnakeGame) (a : Int) :
    (g.after_insert a).head = move_head (move_direction g.snake_direction a) g.head := rfl

lemma after_insert_snake (g : SnakeGame) (a : Int) :
    (g.after_insert a).snake = (g.after_insert a).head :: g.snake := rfl

lemma after_insert_frame (g : SnakeGame) (a : Int) :
    (g.after_insert a).frame_iteration = g.frame_iteration + 1 := rfl

lemma after_insert_score (g : SnakeGame) (a : Int) :
    (g.after_insert a).score = g.score := rfl

lemma after_insert_food (g : SnakeGame) (a : Int) :
    (g.after_insert a).food = g.food := rfl

lemma after_insert_grid_width (g : SnakeGame) (a : Int) :
    (g.after_insert a).grid_width = g.grid_width := rfl

lemma after_insert_grid_height (g : SnakeGame) (a : Int) :
    (g.after_insert a).grid_height = g.grid_height := rfl

lemma after_insert_snake_length (g : SnakeGame) (a : Int) :
    (g.after_insert a).snake.length = g.snake.length + 1 := rfl

/-- Case analysis of a successful `step` call: the terminal branch, the
food branch, or the default branch, with the exact returned record. -/
lemma step_cases (g : SnakeGame) (a : Int) (cands : List Pos) (r : StepResult)
    (h : g.step a cands = some r) :
    (((g.after_insert a).is_collision ||
        decide ((g.after_insert a).frame_iteration >
          100 * (g.after_insert a).snake.length)) = true ∧
      r = ⟨g.after_insert a, (g.after_insert a).get_state, -10, true,
        (g.after_insert a).score⟩) ∨
    (((g.after_insert a).is_collision ||
        decide ((g.after_insert a).frame_iteration >
          100 * (g.after_insert a).snake.length)) = false ∧
      (g.after_insert a).head = (g.after_insert a).food ∧
      ∃ f, place_food cands (g.after_insert a).snake = some f ∧
        r = ⟨{ g.after_insert a with score := (g.after_insert a).score + 1, food := f },
          ({ g.after_insert a with score := (g.after_insert a).score + 1, food := f } : SnakeGame).get_state,
          10, false, (g.after_insert a).score + 1⟩) ∨
    (((g.after_insert a).is_collision ||
        decide ((g.after_insert a).frame_iteration >
          100 * (g.after_insert a).snake.length)) = false ∧
      (g.after_insert a).head ≠ (g.after_insert a).food ∧
      r = ⟨{ g.after_insert a with snake := (g.after_insert a).snake.dropLast },
        ({ g.after_insert a with snake := (g.after_insert a).snake.dropLast } : SnakeGame).get_state,
        -1/100, false, (g.after_insert a).score⟩) := by
  simp only [SnakeGame.step] at h
  split at h
  · next hcond =>
    left
    exact ⟨hcond, (Option.some.inj h).symm⟩
  · next hcond =>
    split at h
    · next heq =>
      right; left
      refine ⟨by simpa using hcond, heq, ?_⟩
      rcases hpf : place_food cands (g.after_insert a).snake with _ | f
      · rw [hpf] at h; exact absurd h (by simp)
      · rw [hpf] at h
        exact ⟨f, rfl, (Option.some.inj h).symm⟩
    · next hne =>
      right; right
      exact ⟨by simpa using hcond, hne, (Option.some.inj h).symm⟩

instance (g : SnakeGame) (p : Pos) : Decidable (in_grid g p) := by
  unfold in_grid; infer_instance

instance (g : SnakeGame) (d : Direction) : Decidable (danger_towards g d) := by
  unfold danger_towards; infer_instance

lemma b2i_eq_if (b : Bool) (p : Prop) [Decidable p] (hb : b = true ↔ p) :
    b2i b = if p then 1 else 0 := by
  cases b <;> simp_all [b2i]

lemma b2i_cases (b : Bool) : b2i b = 0 ∨ b2i b = 1 := by
  cases b <;> simp [b2i]

/-- `move_direction` never returns the opposite of the current direction. -/
lemma move_direction_ne_opposite (current : Direction) (a : Int) :
    move_direction current a ≠ opposites current := by
  have hself : current ≠ opposites current := by cases current <;> decide
  unfold move_direction
  by_cases hin : 0 ≤ a ∧ a ≤ 3
  · rw [if_pos hin]
    show (if directions.getD a.toNat Direction.RIGHT ≠ opposites current
        then directions.getD a.toNat Direction.RIGHT else current) ≠ opposites current
    split
    · next hne => exact hne
    · exact hself
  · rw [if_neg hin]
    exact hself

end Lemmas

section Claims

/-- C1: the action-to-direction mapping used by `step` (via `_move`) is not
consistent with `get_action_space()`'s label table. At the concrete failing
input action = 3, current direction RIGHT: the request is not the opposite
of RIGHT (so it is accepted), the resulting movement direction is DOWN
(head moves to y+1), yet the label table names action 3 "UP". -/
theorem c1_action_label_mismatch :
    move_direction Direction.RIGHT 3 ≠ opposites Direction.RIGHT ∧
    move_direction Direction.RIGHT 3 = Direction.DOWN ∧
    move_head (move_direction Direction.RIGHT 3) (16, 12) = (16, 13) ∧
    get_action_space_actions.lookup 3 = some "UP" ∧
    (move_direction Direction.RIGHT 3).name = "DOWN" := by
  refine ⟨by decide, rfl, rfl, rfl, rfl⟩

/-- C2: reward contract of `step`. On a terminal step the reward is -10;
on a non-terminal step where the new head equals the food cell the reward
is 10 and the returned score is the old score plus 1; otherwise the reward
is -0.01 and the score is unchanged. -/
theorem c2_reward_contract (g : SnakeGame) (a : Int) (cands : List Pos)
    (r : StepResult) (h : g.step a cands = some r) :
    (r.done = true → r.reward = -10) ∧
    (r.done = false → (g.after_insert a).head = g.food →
      r.reward = 10 ∧ r.score = g.score + 1) ∧
    (r.done = false → (g.after_insert a).head ≠ g.food →
      r.reward = -1/100 ∧ r.score = g.score) := by
  rcases step_cases g a cands r h with ⟨_, rfl⟩ | ⟨_, heq, f, _, rfl⟩ | ⟨_, hne, rfl⟩
  · refine ⟨fun _ => rfl, fun hfalse _ => by simp at hfalse, fun hfalse _ => by simp at hfalse⟩
  · rw [after_insert_food] at heq
    refine ⟨fun htrue => by simp at htrue, fun _ _ => ⟨rfl, by rw [after_insert_score]⟩,
      fun _ hne => absurd heq hne⟩
  · rw [after_insert_food] at hne
    refine ⟨fun htrue => by simp at htrue, fun _ heq => absurd heq hne,
      fun _ _ => ⟨rfl, by rw [after_insert_score]⟩⟩

/-- C2 witness: a concrete non-terminal, non-eating step. -/
def gEx : SnakeGame :=
  { grid_width := 32, grid_height := 24, snake_direction := Direction.RIGHT,
    head := (16, 12), snake := [(16, 12), (15, 12), (14, 12)], score := 0,
    food := (20, 12), game_over := false, frame_iteration := 0 }

/-- The result of `gEx.step 0 []`: head advances right, tail popped. -/
def rEx0 : StepResult :=
  ⟨⟨32, 24, Direction.RIGHT, (17, 12), [(17, 12), (16, 12), (15, 12)], 0, (20, 12), false, 1⟩,
   [0, 0, 1, 0, 1, 0, 0, 0, 1, 0, 0, 0], -1/100, false, 0⟩

/-- C2 witness: the reward contract evaluated on the concrete step above. -/
theorem c2_reward_contract_witness :
    gEx.step 0 [] = some rEx0 ∧
    ((rEx0.done = true → rEx0.reward = -10) ∧
     (rEx0.done = false → (gEx.after_insert 0).head = gEx.food →
       rEx0.reward = 10 ∧ rEx0.score = gEx.score + 1) ∧
     (rEx0.done = false → (gEx.after_insert 0).head ≠ gEx.food →
       rEx0.reward = -1/100 ∧ rEx0.score = gEx.score)) :=
  ⟨by rfl, c2_reward_contract gEx 0 [] rEx0 (by rfl)⟩

/-- C3: timeout rule. If no collision occurs and the incremented frame
counter exceeds 100 times the snake length measured with the just-inserted
provisional head, `step` reports done with reward -10. -/
theorem c3_timeout (g : SnakeGame) (a : Int) (cands : List Pos)
    (r : StepResult) (h : g.step a cands = some r)
    (hnc : (g.after_insert a).is_collision = false)
    (hfr : g.frame_iteration + 1 > 100 * (g.snake.length + 1)) :
    r.done = true ∧ r.reward = -10 := by
  have hdec : decide ((g.after_insert a).frame_iteration >
      100 * (g.after_insert a).snake.length) = true := by
    rw [after_insert_frame, after_insert_snake_length]
    exact decide_eq_true hfr
  rcases step_cases g a cands r h with ⟨_, rfl⟩ | ⟨hcond, _, f, _, rfl⟩ | ⟨hcond, _, rfl⟩
  · exact ⟨rfl, rfl⟩
  · rw [hnc, hdec] at hcond; simp at hcond
  · rw [hnc, hdec] at hcond; simp at hcond

/-- A state about to time out: frame counter already at 401 with a
3-segment snake, so the next step reaches 402 > 100 * 4. -/
def gTimeout : SnakeGame :=
  { gEx with frame_iteration := 401 }

/-- The result of `gTimeout.step 0 []`: terminal by timeout. -/
def rTimeout : StepResult :=
  ⟨⟨32, 24, Direction.RIGHT, (17, 12), [(17, 12), (16, 12), (15, 12), (14, 12)], 0, (20, 12), false, 402⟩,
   [0, 0, 1, 0, 1, 0, 0, 0, 1, 0, 0, 0], -10, true, 0⟩

/-- C3 witness: the timeout rule evaluated on the concrete step above. -/
theorem c3_timeout_witness :
    gTimeout.step 0 [] = some rTimeout ∧
    (gTimeout.after_insert 0).is_collision = false ∧
    gTimeout.frame_iteration + 1 > 100 * (gTimeout.snake.length + 1) ∧
    (rTimeout.done = true ∧ rTimeout.reward = -10) :=
  ⟨by rfl, by decide, by decide,
    c3_timeout gTimeout 0 [] rTimeout (by rfl) (by decide) (by decide)⟩

/-- C4: post-reset state. Exactly 3 segments with the head at the grid
center and the two body cells at x-offsets -1 and -2 at the same y;
direction RIGHT; score, frame counter 0; not game over. -/
theorem c4_reset_state (grid_w grid_h : Int) (cands : List Pos)
    (g : SnakeGame) (h : reset grid_w grid_h cands = some g) :
    g.snake.length = 3 ∧
    g.head = (Int.fdiv grid_w 2, Int.fdiv grid_h 2) ∧
    g.snake = [(Int.fdiv grid_w 2, Int.fdiv grid_h 2),
      (Int.fdiv grid_w 2 - 1, Int.fdiv grid_h 2),
      (Int.fdiv grid_w 2 - 2, Int.fdiv grid_h 2)] ∧
    g.snake_direction = Direction.RIGHT ∧
    g.score = 0 ∧ g.frame_iteration = 0 ∧ g.game_over = false := by
  simp only [reset] at h
  rcases hpf : place_food cands [(Int.fdiv grid_w 2, Int.fdiv grid_h 2),
      (Int.fdiv grid_w 2 - 1, Int.fdiv grid_h 2),
      (Int.fdiv grid_w 2 - 2, Int.fdiv grid_h 2)] with _ | f
  · rw [hpf] at h; exact absurd h (by simp)
  · rw [hpf] at h
    rw [← Option.some.inj h]
    exact ⟨rfl, rfl, rfl, rfl, rfl, rfl, rfl⟩

/-- The state produced by `reset 32 24 [(16, 12), (3, 5)]`. -/
def gEx4 : SnakeGame :=
  ⟨32, 24, Direction.RIGHT, (16, 12), [(16, 12), (15, 12), (14, 12)], 0, (3, 5), false, 0⟩

/-- C4 witness: a concrete reset on the 32 by 24 grid; the first draw
(16, 12) sits on the snake and is rejected, the second is accepted. -/
theorem c4_reset_state_witness :
    reset 32 24 [(16, 12), (3, 5)] = some gEx4 ∧
    (gEx4.snake.length = 3 ∧
     gEx4.head = (Int.fdiv 32 2, Int.fdiv 24 2) ∧
     gEx4.snake = [(Int.fdiv 32 2, Int.fdiv 24 2),
       (Int.fdiv 32 2 - 1, Int.fdiv 24 2),
       (Int.fdiv 32 2 - 2, Int.fdiv 24 2)] ∧
     gEx4.snake_direction = Direction.RIGHT ∧
     gEx4.score = 0 ∧ gEx4.frame_iteration = 0 ∧ gEx4.game_over = false) :=
  ⟨by decide, c4_reset_state 32 24 [(16, 12), (3, 5)] gEx4 (by decide)⟩

/-- C5: after any single `step` call, the direction of the returned state
is never the exact opposite of the direction before the call, for any
action value. -/
theorem c5_no_reversal (g : SnakeGame) (a : Int) (cands : List Pos)
    (r : StepResult) (h : g.step a cands = some r) :
    r.state.snake_direction ≠ opposites g.snake_direction := by
  have hd : ∀ gr : SnakeGame, gr.snake_direction = move_direction g.snake_direction a →
      gr.snake_direction ≠ opposites g.snake_direction := by
    intro gr hgr
    rw [hgr]
    exact move_direction_ne_opposite g.snake_direction a
  rcases step_cases g a cands r h with ⟨_, rfl⟩ | ⟨_, _, f, _, rfl⟩ | ⟨_, _, rfl⟩ <;>
    exact hd _ rfl

/-- C5 witness: an opposite request from the concrete state; action 1
requests LEFT against current RIGHT, which is kept, and RIGHT is not the
opposite of RIGHT. -/
theorem c5_no_reversal_witness :
    gEx.step 1 [] = some rEx0 ∧
    rEx0.state.snake_direction ≠ opposites gEx.snake_direction :=
  ⟨by rfl, c5_no_reversal gEx 1 [] rEx0 (by rfl)⟩

/-- C6: a terminating food placement yields a cell inside the grid and
not on the snake, provided every draw is in range (as `random.randint`
guarantees) and at least one draw is off the snake (so the loop ends). -/
theorem c6_place_food_free (grid_w grid_h : Int) (cands snake : List Pos)
    (hin : ∀ c ∈ cands, 0 ≤ c.1 ∧ c.1 < grid_w ∧ 0 ≤ c.2 ∧ c.2 < grid_h)
    (hfree : ∃ c ∈ cands, c ∉ snake) :
    ∃ f, place_food cands snake = some f ∧
      (0 ≤ f.1 ∧ f.1 < grid_w ∧ 0 ≤ f.2 ∧ f.2 < grid_h) ∧ f ∉ snake := by
  have hsome : (cands.find? (fun c => decide (c ∉ snake))).isSome := by
    rw [List.find?_isSome]
    obtain ⟨c, hc, hcn⟩ := hfree
    exact ⟨c, hc, by simpa using hcn⟩
  obtain ⟨f, hf⟩ := Option.isSome_iff_exists.mp hsome
  refine ⟨f, hf, hin f (List.mem_of_find?_eq_some hf), ?_⟩
  simpa using List.find?_some hf

/-- C6 witness: the concrete placement of the C4 witness. -/
theorem c6_place_food_free_witness :
    (∀ c ∈ ([(16, 12), (3, 5)] : List Pos),
      0 ≤ c.1 ∧ c.1 < 32 ∧ 0 ≤ c.2 ∧ c.2 < 24) ∧
    (∃ c ∈ ([(16, 12), (3, 5)] : List Pos),
      c ∉ ([(16, 12), (15, 12), (14, 12)] : List Pos)) ∧
    ∃ f, place_food [(16, 12), (3, 5)] [(16, 12), (15, 12), (14, 12)] = some f ∧
      (0 ≤ f.1 ∧ f.1 < 32 ∧ 0 ≤ f.2 ∧ f.2 < 24) ∧
      f ∉ ([(16, 12), (15, 12), (14, 12)] : List Pos) :=
  ⟨by decide, by decide,
    c6_place_food_free 32 24 [(16, 12), (3, 5)] [(16, 12), (15, 12), (14, 12)]
      (by decide) (by decide)⟩

/-- C8: an action value outside [0,3] is tolerated as a no-op direction
change: the returned state keeps the prior direction and its head has
moved one cell in that retained direction. -/
theorem c8_invalid_action (g : SnakeGame) (a : Int) (cands : List Pos)
    (r : StepResult) (h : g.step a cands = some r)
    (hout : ¬ (0 ≤ a ∧ a ≤ 3)) :
    r.state.snake_direction = g.snake_direction ∧
    r.state.head = move_head g.snake_direction g.head := by
  have hdir : move_direction g.snake_direction a = g.snake_direction := by
    unfold move_direction
    rw [if_neg hout]
  have h1 : (g.after_insert a).snake_direction = g.snake_direction := by
    rw [after_insert_direction, hdir]
  have h2 : (g.after_insert a).head = move_head g.snake_direction g.head := by
    rw [after_insert_head, hdir]
  rcases step_cases g a cands r h with ⟨_, rfl⟩ | ⟨_, _, f, _, rfl⟩ | ⟨_, _, rfl⟩ <;>
    exact ⟨h1, h2⟩

/-- C8 witness: the out-of-range action 7 on the concrete state, which
keeps RIGHT and moves right. -/
theorem c8_invalid_action_witness :
    gEx.step 7 [] = some rEx0 ∧ ¬ ((0 : Int) ≤ 7 ∧ (7 : Int) ≤ 3) ∧
    (rEx0.state.snake_direction = gEx.snake_direction ∧
     rEx0.state.head = move_head gEx.snake_direction gEx.head) :=
  ⟨by rfl, by decide, c8_invalid_action gEx 7 [] rEx0 (by rfl) (by decide)⟩

/-- C9: with the head at x = 0 and the current direction LEFT, the step
with action 1 (the action `_move` maps to LEFT) is terminal: done, reward
-10, and the returned score is the pre-call score. -/
theorem c9_left_wall (g : SnakeGame) (cands : List Pos) (r : StepResult)
    (hx : g.head.1 = 0) (hd : g.snake_direction = Direction.LEFT)
    (h : g.step 1 cands = some r) :
    r.done = true ∧ r.reward = -10 ∧ r.score = g.score := by
  have hdir : move_direction g.snake_direction 1 = Direction.LEFT := by
    rw [hd]; rfl
  have hhead : (g.after_insert 1).head = (g.head.1 - 1, g.head.2) := by
    rw [after_insert_head, hdir]; rfl
  have hcol : (g.after_insert 1).is_collision = true := by
    unfold SnakeGame.is_collision
    rw [hhead, hx]
    simp
  rcases step_cases g 1 cands r h with ⟨_, rfl⟩ | ⟨hcond, _, f, _, rfl⟩ | ⟨hcond, _, rfl⟩
  · exact ⟨rfl, rfl, after_insert_score g 1⟩
  · rw [hcol] at hcond; simp at hcond
  · rw [hcol] at hcond; simp at hcond

/-- A state whose head sits on the left wall moving LEFT. -/
def gWall : SnakeGame :=
  ⟨32, 24, Direction.LEFT, (0, 12), [(0, 12), (1, 12), (2, 12)], 0, (20, 12), false, 0⟩

/-- The result of `gWall.step 1 []`: terminal wall collision. -/
def rWall : StepResult :=
  ⟨⟨32, 24, Direction.LEFT, (-1, 12), [(-1, 12), (0, 12), (1, 12), (2, 12)], 0, (20, 12), false, 1⟩,
   [1, 1, 1, 1, 0, 1, 0, 0, 1, 0, 0, 0], -10, true, 0⟩

/-- C9 witness: driving the concrete snake into the left wall. -/
theorem c9_left_wall_witness :
    gWall.head.1 = 0 ∧ gWall.snake_direction = Direction.LEFT ∧
    gWall.step 1 [] = some rWall ∧
    (rWall.done = true ∧ rWall.reward = -10 ∧ rWall.score = gWall.score) :=
  ⟨by decide, by decide, by rfl,
    c9_left_wall gWall [] rWall (by decide) (by decide) (by rfl)⟩

/-- C10: a terminal step returns before the tail pop and before food or
score change: the returned snake is the provisional new head consed onto
the old body (one segment longer), food and score are untouched, and on a
self-collision the head position occurs at least twice in the body. -/
theorem c10_terminal_frame (g : SnakeGame) (a : Int) (cands : List Pos)
    (r : StepResult) (h : g.step a cands = some r) (hdone : r.done = true) :
    r.state.snake = (g.after_insert a).head :: g.snake ∧
    r.state.snake.length = g.snake.length + 1 ∧
    r.state.food = g.food ∧
    r.state.score = g.score ∧
    r.score = g.score ∧
    ((g.after_insert a).head ∈ g.snake →
      2 ≤ r.state.snake.count (g.after_insert a).head) := by
  rcases step_cases g a cands r h with ⟨_, rfl⟩ | ⟨_, _, f, _, rfl⟩ | ⟨_, _, rfl⟩
  · refine ⟨after_insert_snake g a, after_insert_snake_length g a,
      after_insert_food g a, after_insert_score g a, after_insert_score g a, ?_⟩
    intro hm
    rw [after_insert_snake, List.count_cons_self]
    have hpos : 0 < g.snake.count (g.after_insert a).head := by
      rw [List.count_pos_iff]
      exact hm
    omega
  · exact Bool.noConfusion hdone
  · exact Bool.noConfusion hdone

/-- A state about to collide with its own body: action 3 (DOWN) sends the
head onto segment (5, 6). -/
def gSelf : SnakeGame :=
  ⟨32, 24, Direction.RIGHT, (5, 5), [(5, 5), (4, 5), (4, 6), (5, 6), (6, 6)], 0, (20, 12), false, 0⟩

/-- The result of `gSelf.step 3 []`: terminal self-collision with the head
cell occurring twice in the returned body. -/
def rSelf : StepResult :=
  ⟨⟨32, 24, Direction.DOWN, (5, 6), [(5, 6), (5, 5), (4, 5), (4, 6), (5, 6), (6, 6)], 0, (20, 12), false, 1⟩,
   [1, 0, 1, 1, 0, 0, 0, 1, 1, 1, 0, 0], -10, true, 0⟩

/-- C10 witness: the concrete self-collision above. -/
theorem c10_terminal_frame_witness :
    gSelf.step 3 [] = some rSelf ∧ rSelf.done = true ∧
    (rSelf.state.snake = (gSelf.after_insert 3).head :: gSelf.snake ∧
     rSelf.state.snake.length = gSelf.snake.length + 1 ∧
     rSelf.state.food = gSelf.food ∧
     rSelf.state.score = gSelf.score ∧
     rSelf.score = gSelf.score ∧
     ((gSelf.after_insert 3).head ∈ gSelf.snake →
       2 ≤ rSelf.state.snake.count (gSelf.after_insert 3).head)) :=
  ⟨by rfl, by decide, c10_terminal_frame gSelf 3 [] rSelf (by rfl) (by decide)⟩

/-- C7: shape and content of the 12-value observation. Length 12, every
value 0 or 1; indices 0-3 are the danger flags for the absolute directions
RIGHT, DOWN, LEFT, UP (off-grid or on a body segment excluding the head,
one cell from the head); indices 4-7 are the one-hot of the current
direction at its ordinal position under RIGHT = 0, LEFT = 1, UP = 2,
DOWN = 3; indices 8-11 are the food-relative flags. -/
theorem c7_observation (g : SnakeGame) :
    g.get_state.length = 12 ∧
    (∀ v ∈ g.get_state, v = 0 ∨ v = 1) ∧
    g.get_state.getD 0 0 = (if danger_towards g Direction.RIGHT then 1 else 0) ∧
    g.get_state.getD 1 0 = (if danger_towards g Direction.DOWN then 1 else 0) ∧
    g.get_state.getD 2 0 = (if danger_towards g Direction.LEFT then 1 else 0) ∧
    g.get_state.getD 3 0 = (if danger_towards g Direction.UP then 1 else 0) ∧
    (∀ d : Direction, g.get_state.getD (4 + d.value) 0 =
      if g.snake_direction = d then 1 else 0) ∧
    g.get_state.getD 8 0 = (if g.food.1 > g.head.1 then 1 else 0) ∧
    g.get_state.getD 9 0 = (if g.food.2 > g.head.2 then 1 else 0) ∧
    g.get_state.getD 10 0 = (if g.food.1 < g.head.1 then 1 else 0) ∧
    g.get_state.getD 11 0 = (if g.food.2 < g.head.2 then 1 else 0) := by
  refine ⟨?_, ?_, ?_, ?_, ?_, ?_, ?_, ?_, ?_, ?_, ?_⟩
  · simp [SnakeGame.get_state]
  · intro v hv
    simp only [SnakeGame.get_state] at hv
    rcases hdir : g.snake_direction <;> rw [hdir] at hv <;>
      simp [Direction.value, List.set] at hv <;>
      rcases hv with rfl | rfl | rfl | rfl | rfl | rfl | rfl | rfl | rfl | rfl | rfl | rfl <;>
      first | exact b2i_cases _ | simp
  · show b2i _ = _
    apply b2i_eq_if
    simp only [ge_iff_le, Bool.or_eq_true, decide_eq_true_eq]
    simp [danger_towards, in_grid, move_head]
    exact or_congr (by omega) Iff.rfl
  · show b2i _ = _
    apply b2i_eq_if
    simp only [ge_iff_le, Bool.or_eq_true, decide_eq_true_eq]
    simp [danger_towards, in_grid, move_head]
    exact or_congr (by omega) Iff.rfl
  · show b2i _ = _
    apply b2i_eq_if
    simp only [ge_iff_le, Bool.or_eq_true, decide_eq_true_eq]
    simp [danger_towards, in_grid, move_head]
    exact or_congr (by omega) Iff.rfl
  · show b2i _ = _
    apply b2i_eq_if
    simp only [ge_iff_le, Bool.or_eq_true, decide_eq_true_eq]
    simp [danger_towards, in_grid, move_head]
    exact or_congr (by omega) Iff.rfl
  · intro d
    rcases hdir : g.snake_direction <;> cases d <;>
      simp [SnakeGame.get_state, hdir, Direction.value]
  · rcases hdir : g.snake_direction <;>
      (simp only [SnakeGame.get_state, hdir]; exact b2i_eq_if _ _ (by simp))
  · rcases hdir : g.snake_direction <;>
      (simp only [SnakeGame.get_state, hdir]; exact b2i_eq_if _ _ (by simp))
  · rcases hdir : g.snake_direction <;>
      (simp only [SnakeGame.get_state, hdir]; exact b2i_eq_if _ _ (by simp))
  · rcases hdir : g.snake_direction <;>
      (simp only [SnakeGame.get_state, hdir]; exact b2i_eq_if _ _ (by simp))

end Claims

end Snake
